import Mathlib

/-!
Verification of the Phonesium_Miner proof-of-work client.

The relevant Python code is shallowly embedded as Lean definitions:

* Python strings that are inspected character by character (the hex digests
  checked by `is_valid_hash`) are modelled as `List Char`; strings that are
  only compared or concatenated are modelled as `String`.
* Python `int` is modelled as `Int`, `float` hash rates as `ℚ`.
* The HTTP responses a submission run observes are scripted: `script k` is
  the response to the k-th HTTP request of the run.
* Optional values (`None`, missing JSON keys) are modelled as `Option`.
-/

namespace Phonesium

/-- Python `MinerCore.is_valid_hash` (src/miner/miner_core.py lines 91-95),
identical to `PhonesiumMiner.is_valid_hash` (src/miner.py lines 402-407).
`hash_value` is `Option (List Char)` so that Python `None` is representable;
Python `not hash_value` is true exactly for `None` and the empty string.
Python `'0' * difficulty` is empty for non-positive `difficulty`, which is
`List.replicate difficulty.toNat '0'`. -/
def is_valid_hash (hash_value : Option (List Char)) (difficulty : Int) : Bool :=
  match hash_value with
  | none => false
  | some h =>
    if h = [] then false
    else if (h.length : Int) < difficulty then false
    else List.isPrefixOf (List.replicate difficulty.toNat '0') h

/-- Python `MinerCore.adjust_difficulty` (src/miner/miner_core.py lines
97-111), identical to `PhonesiumMiner.adjust_difficulty` (src/miner.py lines
409-424). Hash rates are Python floats, modelled as rationals. The function
mutates `self.config.difficulty`; the embedding returns the new value. -/
def adjust_difficulty (auto_difficulty : Bool) (last_hash_rates : List ℚ)
    (difficulty : Int) : Int :=
  if !auto_difficulty then difficulty
  else if 5 ≤ last_hash_rates.length then
    let avg_rate := last_hash_rates.sum / (last_hash_rates.length : ℚ)
    if 1000000 < avg_rate ∧ difficulty < 8 then difficulty + 1
    else if avg_rate < 100000 ∧ 3 < difficulty then difficulty - 1
    else difficulty
  else difficulty

/-- Python rolling-window update executed after a solved round
(src/miner/miner_core.py lines 208-210, src/miner.py lines 521-526):
`self.last_hash_rates.append(hash_rate); if len(self.last_hash_rates) > 10:
self.last_hash_rates.pop(0)`. `pop(0)` removes the oldest entry. -/
def record_rate (last_hash_rates : List ℚ) (hash_rate : ℚ) : List ℚ :=
  let rates := last_hash_rates ++ [hash_rate]
  if 10 < rates.length then rates.tail else rates

/-- Model of Python `str.lower()` as applied to the ASCII algorithm names
and error keywords this client compares (Lean's own `String.toLower` is
extensionally the same on ASCII but is not kernel-reducible). -/
def str_lower (s : String) : String := String.mk (s.data.map Char.toLower)

/-- Python `MinerCore.calculate_hash` (src/miner/miner_core.py lines 77-89),
identical to `PhonesiumMiner.calculate_hash` (src/miner.py lines 386-400).
The three `hashlib` digest primitives are external to the repository and are
taken as parameters mapping the UTF-8 message to its lowercase hex digest.
`env_hash_algorithm` models the value returned by the call
`os.getenv('HASH_ALGORITHM', 'sha256')` executed inside this very function:
the environment is read again on every single hash call. -/
def calculate_hash (sha256 sha1 md5 : String → String)
    (env_hash_algorithm : Option String) (data : String) (nonce : Int) :
    String :=
  let message := data ++ toString nonce
  let hash_algorithm := str_lower (env_hash_algorithm.getD ("sha256"))
  if hash_algorithm = "sha256" then sha256 message
  else if hash_algorithm = "sha1" then sha1 message
  else if hash_algorithm = "md5" then md5 message
  else sha256 message

/-- Digests computed by `mine_block_thread` over its first `count` nonces
(src/miner/miner_core.py lines 129-137): the k-th hash call performs its own
environment read, whose observed value is `env_at k`. -/
def thread_hash_seq (sha256 sha1 md5 : String → String)
    (env_at : Nat → Option String) (block_data : String) (start_nonce : Int)
    (count : Nat) : List String :=
  (List.range count).map fun (k : Nat) =>
    calculate_hash sha256 sha1 md5 (env_at k) block_data
      (start_nonce + (k : Int))

/-- Modelled from the spec: the spec states the hash algorithm is "resolved
once per round and passed in - not re-read per call". Under that reading the
whole round uses the single environment value `env0`. This definition follows
the spec's words and is compared against `thread_hash_seq`, which follows the
source. -/
def thread_hash_seq_pinned (sha256 sha1 md5 : String → String)
    (env0 : Option String) (block_data : String) (start_nonce : Int)
    (count : Nat) : List String :=
  (List.range count).map fun (k : Nat) =>
    calculate_hash sha256 sha1 md5 env0 block_data (start_nonce + (k : Int))

/-- Stand-in interpretation of the external `hashlib.sha256` hex digest: an
injective tagging function, sufficient to distinguish which algorithm
produced a digest. -/
def tag_sha256 (message : String) : String := "sha256/" ++ message

/-- Stand-in interpretation of the external `hashlib.sha1` hex digest. -/
def tag_sha1 (message : String) : String := "sha1/" ++ message

/-- Stand-in interpretation of the external `hashlib.md5` hex digest. -/
def tag_md5 (message : String) : String := "md5/" ++ message

/-- An environment trace whose value changes between the first and the
second hash call of a round. -/
def flipping_env (k : Nat) : Option String :=
  if k = 0 then some ("sha256") else some ("md5")

/-- Body of an HTTP response as seen by the client: a parsed JSON object
with its `success` flag and optional `error` text, or a body whose JSON
parse fails (`json.JSONDecodeError`), carrying the exception text. -/
inductive HttpBody where
  | json (success : Bool) (error : Option String)
  | malformed (msg : String)
  deriving DecidableEq

/-- One observed outcome of an HTTP request: a response with a status code
and body, a transport timeout, a connection failure, or some other
exception. -/
inductive HttpResp where
  | http (status_code : Nat) (body : HttpBody)
  | timeout
  | conn_error
  | exn (msg : String)
  deriving DecidableEq

/-- The non-retryable error keywords of `submit_block`
(src/miner/api_handler.py line 154, src/miner.py line 628). -/
def non_retryable_errors : List String :=
  ["duplicate", "already submitted", "exists", "invalid hash", "expired"]

/-- Python `any(keyword in error_msg.lower() for keyword in
non_retryable_errors)`: case-insensitive substring match. -/
def contains_keyword (error_msg : String) : Bool :=
  non_retryable_errors.any fun keyword =>
    decide (keyword.data <:+: (str_lower error_msg).data)

/-- The dictionary returned by `ApiHandler.submit_block`: its `success`
flag, its `retryable` flag when present (the key is absent on the success
path), and its `error` text when present. The `data` payload forwarded on
success is not modelled; no claim below inspects it. -/
structure SubmitResult where
  success : Bool
  retryable : Option Bool
  error : Option String
  deriving DecidableEq

/-- Observable trace of one `submit_block` run: the returned dictionary,
the loop-attempt index at which each HTTP request was issued (in order),
and the sleep durations in seconds (in order). -/
structure SubmitRun where
  result : SubmitResult
  request_attempts : List Nat
  sleeps : List Int
  deriving DecidableEq

/-- Loop body of `ApiHandler.submit_block` (src/miner/api_handler.py lines
131-182). `script req` is the outcome of the req-th HTTP request of the
run; `attempt` is the Python loop variable, `remaining` the loop iterations
left (`retry_attempts - attempt`). On HTTP 429 the code sleeps 5 s and
executes `continue`, which moves the `for` loop to the next value of
`attempt`. After the loop, the function returns the max-retries dictionary
(line 182). -/
def submit_block_api_go (script : Nat → HttpResp) (retry_delay : Int) :
    Nat → Nat → Nat → List Nat → List Int → SubmitRun
  | _, 0, _, request_attempts, sleeps =>
    ⟨⟨false, some false, some ("Max retries exceeded")⟩, request_attempts,
      sleeps⟩
  | attempt, remaining + 1, req, request_attempts, sleeps =>
    let sleeps :=
      if 0 < attempt then sleeps ++ [retry_delay * (attempt : Int)]
      else sleeps
    let request_attempts := request_attempts ++ [attempt]
    match script req with
    | .http status_code body =>
      if status_code = 200 then
        match body with
        | .json true _ => ⟨⟨true, none, none⟩, request_attempts, sleeps⟩
        | .json false e =>
          let error_msg := e.getD ("Unknown error")
          if contains_keyword error_msg then
            ⟨⟨false, some false, some error_msg⟩, request_attempts, sleeps⟩
          else
            ⟨⟨false, some true, some error_msg⟩, request_attempts, sleeps⟩
        | .malformed m =>
          ⟨⟨false, some true, some m⟩, request_attempts, sleeps⟩
      else if status_code = 409 then
        ⟨⟨false, some false, some ("Duplicate block")⟩, request_attempts,
          sleeps⟩
      else if status_code = 429 then
        submit_block_api_go script retry_delay (attempt + 1) remaining
          (req + 1) request_attempts (sleeps ++ [5])
      else
        ⟨⟨false, some true, some ("Server error: " ++ toString status_code)⟩,
          request_attempts, sleeps⟩
    | .timeout =>
      ⟨⟨false, some true, some ("Request timeout")⟩, request_attempts, sleeps⟩
    | .conn_error =>
      ⟨⟨false, some true, some ("Connection error")⟩, request_attempts,
        sleeps⟩
    | .exn m => ⟨⟨false, some true, some m⟩, request_attempts, sleeps⟩

/-- Python `ApiHandler.submit_block` (src/miner/api_handler.py lines
118-182), run against the response script. -/
def submit_block_api (script : Nat → HttpResp) (retry_delay : Int)
    (retry_attempts : Nat) : SubmitRun :=
  submit_block_api_go script retry_delay 0 retry_attempts 0 [] []

/-- The three shared counters of the stats dictionary that the submission
paths touch (`accepted_blocks`, `rejected_blocks`, `network_errors`); the
remaining stats fields (timing, earnings, balance, power level) are not
inspected by any claim and are projected away. -/
structure MinerStats where
  accepted_blocks : Nat
  rejected_blocks : Nat
  network_errors : Nat
  deriving DecidableEq

/-- Observable trace of one `PhonesiumMiner.submit_block` run: the returned
boolean, the request attempt indices, the sleeps, and the final counters. -/
structure MinerSubmitRun where
  returned : Bool
  request_attempts : List Nat
  sleeps : List Int
  stats : MinerStats
  deriving DecidableEq

/-- Loop body of `PhonesiumMiner.submit_block` (src/miner.py lines 569-670).
Unlike the `ApiHandler` variant, this one mutates the stats counters
directly and keeps looping on retryable 200-rejections, malformed JSON,
non-200 statuses and transport errors; it returns `False` without further
counter updates when the loop ends (line 670). -/
def submit_block_miner_go (script : Nat → HttpResp) (retry_delay : Int) :
    Nat → Nat → Nat → List Nat → List Int → MinerStats → MinerSubmitRun
  | _, 0, _, request_attempts, sleeps, stats =>
    ⟨false, request_attempts, sleeps, stats⟩
  | attempt, remaining + 1, req, request_attempts, sleeps, stats =>
    let sleeps :=
      if 0 < attempt then sleeps ++ [retry_delay * (attempt : Int)]
      else sleeps
    let request_attempts := request_attempts ++ [attempt]
    match script req with
    | .http status_code body =>
      if status_code = 200 then
        match body with
        | .json true _ =>
          ⟨true, request_attempts, sleeps,
            { stats with accepted_blocks := stats.accepted_blocks + 1 }⟩
        | .json false e =>
          let stats :=
            { stats with rejected_blocks := stats.rejected_blocks + 1 }
          let error_msg := e.getD ("Unknown error")
          if contains_keyword error_msg then
            ⟨false, request_attempts, sleeps, stats⟩
          else
            submit_block_miner_go script retry_delay (attempt + 1) remaining
              (req + 1) request_attempts sleeps stats
        | .malformed _ =>
          submit_block_miner_go script retry_delay (attempt + 1) remaining
            (req + 1) request_attempts sleeps
            { stats with network_errors := stats.network_errors + 1 }
      else if status_code = 409 then
        ⟨false, request_attempts, sleeps,
          { stats with rejected_blocks := stats.rejected_blocks + 1 }⟩
      else if status_code = 429 then
        submit_block_miner_go script retry_delay (attempt + 1) remaining
          (req + 1) request_attempts (sleeps ++ [5]) stats
      else
        submit_block_miner_go script retry_delay (attempt + 1) remaining
          (req + 1) request_attempts sleeps
          { stats with network_errors := stats.network_errors + 1 }
    | .timeout =>
      submit_block_miner_go script retry_delay (attempt + 1) remaining
        (req + 1) request_attempts sleeps
        { stats with network_errors := stats.network_errors + 1 }
    | .conn_error =>
      submit_block_miner_go script retry_delay (attempt + 1) remaining
        (req + 1) request_attempts sleeps
        { stats with network_errors := stats.network_errors + 1 }
    | .exn _ =>
      submit_block_miner_go script retry_delay (attempt + 1) remaining
        (req + 1) request_attempts sleeps
        { stats with network_errors := stats.network_errors + 1 }

/-- Python `PhonesiumMiner.submit_block` (src/miner.py lines 547-670), run
against the response script from the given counters. -/
def submit_block_miner (script : Nat → HttpResp) (retry_delay : Int)
    (retry_attempts : Nat) (stats : MinerStats) : MinerSubmitRun :=
  submit_block_miner_go script retry_delay 0 retry_attempts 0 [] [] stats

/-- Counter update the mining loop of `PhonesiumMinerApp.start_mining`
applies to a finished submission (src/app.py lines 209-245): on success the
accepted counter rises; otherwise `rejected_blocks` rises and
`network_errors` rises exactly when `submit_result.get('retryable', True)`
is true. -/
def apply_submit_result (stats : MinerStats) (r : SubmitResult) :
    MinerStats :=
  if r.success then
    { stats with accepted_blocks := stats.accepted_blocks + 1 }
  else
    { stats with
      rejected_blocks := stats.rejected_blocks + 1
      network_errors :=
        stats.network_errors + (if r.retryable.getD true then 1 else 0) }

/-- Guard of `MinerCore.mine_block` (src/miner/miner_core.py lines 165-171):
when the single-instance lock is not held the function returns `None` at
once; otherwise it runs the rest of the round (lines 172-226), abstracted
here as `locked_run`, which yields the optional solution, the updated
shared state and the number of dispatched workers. -/
def mine_block {σ α : Type} (is_locked : Bool) (stats : σ)
    (locked_run : σ → Option α × σ × Nat) : Option α × σ × Nat :=
  if !is_locked then (none, stats, 0) else locked_run stats

/-- Response script: one HTTP 429, then HTTP 200 with success, the scenario
of claim C2. -/
def script_429_then_ok : Nat → HttpResp := fun k =>
  if k = 0 then .http 429 (.json true none) else .http 200 (.json true none)

/-- Response script returning HTTP 200 with `success=false` and a retryable
(non-keyword) error text on every request. -/
def script_clean_rejection : Nat → HttpResp := fun _ =>
  .http 200 (.json false (some ("server busy")))

/-- Response script for the miner.py variant: one retryable 200-rejection,
then HTTP 200 success. -/
def script_rejection_then_ok (e : String) : Nat → HttpResp := fun k =>
  if k = 0 then .http 200 (.json false (some e))
  else .http 200 (.json true none)

/-- Response script returning HTTP 500 on every request, the scenario of
claim C4. -/
def script_all_500 : Nat → HttpResp := fun _ => .http 500 (.json true none)

/-- Helper: being a prefix of `h` as a replicate list is equivalent to the
take of `h` consisting of that character, provided the length bound holds. -/
theorem replicate_isPrefixOf_iff (n : Nat) (c : Char) (h : List Char) :
    List.isPrefixOf (List.replicate n c) h =
      (decide (n ≤ h.length) && (h.take n).all (fun x => x = c)) := by
  induction n generalizing h with
  | zero => simp [List.isPrefixOf]
  | succ m ih =>
    cases h with
    | nil => simp [List.replicate_succ, List.isPrefixOf]
    | cons a t =>
      simp only [List.replicate_succ, List.isPrefixOf, List.take_succ_cons,
        List.all_cons, ih, List.length_cons]
      by_cases hac : a = c
      · subst hac
        simp [Nat.succ_le_succ_iff]
      · simp [hac, Ne.symm hac, beq_iff_eq]

/-- Claim C1 (counterexample): the claimed equivalence "valid iff the hash has
at least `d` characters and its first `d` characters are all zero" fails at
difficulty 0 on the empty string: the right-hand side holds vacuously while
`is_valid_hash` rejects the empty string for every difficulty. -/
theorem is_valid_hash_claim_fails_at_zero :
    ¬ (is_valid_hash (some []) 0 = true ↔
        ((0 : Int) ≤ (([] : List Char).length : Int) ∧
          ∀ c ∈ ([] : List Char).take (Int.toNat 0), c = '0')) := by
  decide

/-- Claim C1 (amended): for every difficulty `d ≥ 1` and every hash character
list `h`, `is_valid_hash` accepts `h` iff `h` has at least `d` characters and
its first `d` characters are all the character zero; in particular any `h`
with fewer than `d` characters is rejected. -/
theorem is_valid_hash_characterization (h : List Char) (d : Int) (hd : 1 ≤ d) :
    is_valid_hash (some h) d = true ↔
      (d ≤ (h.length : Int) ∧ ∀ c ∈ h.take d.toNat, c = '0') := by
  have hd0 : (0 : Int) ≤ d := le_trans (by norm_num) hd
  unfold is_valid_hash
  by_cases hnil : h = []
  · subst hnil
    simp only [List.length_nil, Int.ofNat_zero, if_pos rfl]
    constructor
    · intro hfalse; cases hfalse
    · rintro ⟨hle, -⟩; omega
  · simp only [if_neg hnil]
    by_cases hlen : (h.length : Int) < d
    · simp only [if_pos hlen]
      constructor
      · intro hfalse; cases hfalse
      · rintro ⟨hle, -⟩; omega
    · simp only [if_neg hlen]
      rw [replicate_isPrefixOf_iff]
      simp only [Bool.and_eq_true, decide_eq_true_eq, List.all_eq_true,
        decide_eq_true_eq]
      constructor
      · rintro ⟨hle, hall⟩
        exact ⟨by omega, hall⟩
      · rintro ⟨hle, hall⟩
        exact ⟨by omega, hall⟩

/-- Witness for the amended claim C1, at `h = ['0','a']` and `d = 1`. -/
theorem is_valid_hash_characterization_witness :
    is_valid_hash (some ['0', 'a']) 1 = true ↔
      ((1 : Int) ≤ ((['0', 'a'] : List Char).length : Int) ∧
        ∀ c ∈ (['0', 'a'] : List Char).take (Int.toNat 1), c = '0') :=
  is_valid_hash_characterization ['0', 'a'] 1 (by norm_num)

/-- Claim C10: at difficulty 0 or below, every non-empty hash is judged valid
(the required prefix is empty), while `None` and the empty string are judged
invalid for every difficulty, including 0. -/
theorem is_valid_hash_edge_cases :
    (∀ (d : Int) (h : List Char), d ≤ 0 → h ≠ [] →
      is_valid_hash (some h) d = true) ∧
    (∀ d : Int, is_valid_hash none d = false ∧
      is_valid_hash (some []) d = false) := by
  constructor
  · intro d h hd hne
    unfold is_valid_hash
    have htn : d.toNat = 0 := Int.toNat_of_nonpos hd
    have hlt : ¬ ((h.length : Int) < d) := by
      have : (0 : Int) ≤ (h.length : Int) := Int.ofNat_nonneg _
      omega
    simp [hne, hlt, htn, List.isPrefixOf]
  · intro d
    constructor
    · rfl
    · unfold is_valid_hash
      simp

/-- Witness for claim C10, at difficulty `-1` with hash `['a']` and at
difficulty 0 for the empty cases. -/
theorem is_valid_hash_edge_cases_witness :
    is_valid_hash (some ['a']) (-1) = true ∧
      is_valid_hash none 0 = false ∧ is_valid_hash (some []) 0 = false :=
  ⟨is_valid_hash_edge_cases.1 (-1) ['a'] (by norm_num) (by decide),
   is_valid_hash_edge_cases.2 0⟩

/-- Claim C6: the difficulty is incremented by 1 only when the window holds
at least 5 samples, their mean exceeds 1,000,000 H/s and the difficulty is
below 8; it is decremented by 1 only when the window holds at least 5
samples, their mean is below 100,000 H/s and the difficulty is above 3; when
neither condition holds the difficulty is left unchanged. -/
theorem adjust_difficulty_characterization (auto : Bool) (rates : List ℚ)
    (d : Int) :
    (adjust_difficulty auto rates d = d + 1 →
      (5 ≤ rates.length ∧ 1000000 < rates.sum / (rates.length : ℚ) ∧ d < 8)) ∧
    (adjust_difficulty auto rates d = d - 1 →
      (5 ≤ rates.length ∧ rates.sum / (rates.length : ℚ) < 100000 ∧ 3 < d)) ∧
    ((¬ (5 ≤ rates.length ∧ 1000000 < rates.sum / (rates.length : ℚ) ∧ d < 8) ∧
      ¬ (5 ≤ rates.length ∧ rates.sum / (rates.length : ℚ) < 100000 ∧ 3 < d)) →
      adjust_difficulty auto rates d = d) := by
  cases auto with
  | false =>
    have hfalse : adjust_difficulty false rates d = d := rfl
    refine ⟨fun hc => ?_, fun hc => ?_, fun _ => hfalse⟩ <;>
      (rw [hfalse] at hc; omega)
  | true =>
    unfold adjust_difficulty
    simp only [Bool.not_true, Bool.false_eq_true, if_false]
    by_cases hlen : 5 ≤ rates.length
    · simp only [if_pos hlen]
      by_cases hup : 1000000 < rates.sum / (rates.length : ℚ) ∧ d < 8
      · simp only [if_pos hup]
        exact ⟨fun _ => ⟨hlen, hup⟩, fun hc => by omega, fun hc => (hc.1 ⟨hlen, hup⟩).elim⟩
      · simp only [if_neg hup]
        by_cases hdn : rates.sum / (rates.length : ℚ) < 100000 ∧ 3 < d
        · simp only [if_pos hdn]
          exact ⟨fun hc => by omega, fun _ => ⟨hlen, hdn⟩, fun hc => (hc.2 ⟨hlen, hdn⟩).elim⟩
        · simp only [if_neg hdn]
          exact ⟨fun hc => by omega, fun hc => by omega, fun _ => trivial⟩
    · simp only [if_neg hlen]
      exact ⟨fun hc => by omega, fun hc => by omega, fun _ => trivial⟩

/-- Witness for claim C6: with auto-difficulty on, five samples of
2,000,000 H/s and difficulty 5, the difficulty is incremented, so the
increment conditions must hold there. -/
theorem adjust_difficulty_characterization_witness :
    5 ≤ ([2000000, 2000000, 2000000, 2000000, 2000000] : List ℚ).length ∧
      1000000 < ([2000000, 2000000, 2000000, 2000000, 2000000] : List ℚ).sum /
        ((([2000000, 2000000, 2000000, 2000000, 2000000] : List ℚ).length : ℚ)) ∧
      (5 : Int) < 8 :=
  (adjust_difficulty_characterization true
      [2000000, 2000000, 2000000, 2000000, 2000000] 5).1
    (by norm_num [adjust_difficulty])

/-- Helper: `record_rate` preserves the length bound 10. -/
theorem record_rate_length_le (w : List ℚ) (r : ℚ) (hw : w.length ≤ 10) :
    (record_rate w r).length ≤ 10 := by
  show (if 10 < (w ++ [r]).length then (w ++ [r]).tail
    else w ++ [r]).length ≤ 10
  split
  · simp only [List.length_tail, List.length_append, List.length_singleton]
    omega
  · simp only [List.length_append, List.length_singleton] at *
    omega

/-- Helper: any fold of `record_rate` from a within-bound window stays
within bound. -/
theorem foldl_record_rate_length_le (rs : List ℚ) (w : List ℚ)
    (hw : w.length ≤ 10) : (rs.foldl record_rate w).length ≤ 10 := by
  induction rs generalizing w with
  | nil => simpa using hw
  | cons r rs ih =>
    simp only [List.foldl_cons]
    exact ih _ (record_rate_length_le w r hw)

/-- Claim C7: starting from the empty window, any sequence of insertions
leaves at most 10 entries; an insertion into a full window of 10 evicts the
oldest entry first (FIFO), and an insertion into a smaller window simply
appends. -/
theorem record_rate_window_invariant :
    (∀ rs : List ℚ, (rs.foldl record_rate []).length ≤ 10) ∧
    (∀ (w : List ℚ) (r : ℚ), w.length = 10 → record_rate w r = w.tail ++ [r]) ∧
    (∀ (w : List ℚ) (r : ℚ), w.length < 10 → record_rate w r = w ++ [r]) := by
  refine ⟨fun rs => foldl_record_rate_length_le rs [] (by simp), ?_, ?_⟩
  · intro w r hw
    unfold record_rate
    have hlen : 10 < (w ++ [r]).length := by
      simp [List.length_append, hw]
    simp only [if_pos hlen]
    cases w with
    | nil => simp at hw
    | cons a t => simp
  · intro w r hw
    unfold record_rate
    have hlen : ¬ 10 < (w ++ [r]).length := by
      simp only [List.length_append, List.length_singleton]
      omega
    simp only [if_neg hlen]

/-- Witness for claim C7: a full window of ten rates evicts its oldest entry
on the eleventh insertion, and a window of one rate simply appends. -/
theorem record_rate_window_invariant_witness :
    record_rate [1, 2, 3, 4, 5, 6, 7, 8, 9, 10] 11 =
      ([1, 2, 3, 4, 5, 6, 7, 8, 9, 10] : List ℚ).tail ++ [11] ∧
    record_rate [1] 2 = ([1] : List ℚ) ++ [2] :=
  ⟨record_rate_window_invariant.2.1 [1, 2, 3, 4, 5, 6, 7, 8, 9, 10] 11 (by simp),
   record_rate_window_invariant.2.2 [1] 2 (by simp)⟩

/-- Claim C8 (counterexample): the algorithm selection is not resolved once
per round; because `calculate_hash` re-reads the environment on every call,
a round whose environment changes after the first call computes digests that
differ from every run of the pinned-per-round variant started from the same
first observation. -/
theorem calculate_hash_not_pinned_per_round :
    thread_hash_seq tag_sha256 tag_sha1 tag_md5 flipping_env ("X") 0 2 ≠
      thread_hash_seq_pinned tag_sha256 tag_sha1 tag_md5 (flipping_env 0)
        ("X") 0 2 := by
  decide

/-- Claim C8 (amended): `calculate_hash` is a pure deterministic function of
the block data, the nonce, and the environment value observed at the call
(two calls whose observed values resolve to the same algorithm name yield
the same digest), and when the environment value is constant over every call
of a round, the digests of the round coincide with those of the
pinned-per-round variant. -/
theorem calculate_hash_deterministic (sha256 sha1 md5 : String → String) :
    (∀ (e e2 : Option String) (data : String) (nonce : Int),
      str_lower (e.getD ("sha256")) = str_lower (e2.getD ("sha256")) →
      calculate_hash sha256 sha1 md5 e data nonce =
        calculate_hash sha256 sha1 md5 e2 data nonce) ∧
    (∀ (env_at : Nat → Option String) (e : Option String) (data : String)
      (n0 : Int) (count : Nat), (∀ k, env_at k = e) →
      thread_hash_seq sha256 sha1 md5 env_at data n0 count =
        thread_hash_seq_pinned sha256 sha1 md5 e data n0 count) := by
  constructor
  · intro e e2 data nonce hres
    unfold calculate_hash
    rw [hres]
  · intro env_at e data n0 count hconst
    unfold thread_hash_seq thread_hash_seq_pinned
    apply List.map_congr_left
    intro k _
    rw [hconst k]

/-- Witness for the amended claim C8: the environment values
`some "SHA256"` and `none` resolve to the same algorithm and give the same
digest, and a constant environment trace matches the pinned variant. -/
theorem calculate_hash_deterministic_witness :
    calculate_hash tag_sha256 tag_sha1 tag_md5 (some ("SHA256")) ("X") 7 =
      calculate_hash tag_sha256 tag_sha1 tag_md5 none ("X") 7 ∧
    thread_hash_seq tag_sha256 tag_sha1 tag_md5 (fun _ => some ("md5"))
        ("X") 0 3 =
      thread_hash_seq_pinned tag_sha256 tag_sha1 tag_md5 (some ("md5"))
        ("X") 0 3 :=
  ⟨(calculate_hash_deterministic tag_sha256 tag_sha1 tag_md5).1
      (some ("SHA256")) none ("X") 7 (by decide),
   (calculate_hash_deterministic tag_sha256 tag_sha1 tag_md5).2
      (fun _ => some ("md5")) (some ("md5")) ("X") 0 3 (fun _ => rfl)⟩

/-- Claim C9: whenever the single-instance lock has not been acquired,
`mine_block` returns `None` immediately, dispatches no worker and leaves
the shared stats untouched, whatever the rest of the round would compute;
with the lock held it proceeds with the round. -/
theorem mine_block_requires_lock {σ α : Type} (stats : σ)
    (locked_run : σ → Option α × σ × Nat) :
    mine_block false stats locked_run = (none, stats, 0) ∧
      mine_block true stats locked_run = locked_run stats :=
  ⟨rfl, rfl⟩

/-- Claim C2 (counterexample): with the default configuration
(`retry_delay = 2`, `retry_attempts = 5`) and one HTTP 429 followed by
HTTP 200 success, the two requests are issued at loop-attempt indices 0 and
1 - not at the same attempt index as the claim states - so the 429 consumed
an attempt slot; accordingly, with `retry_attempts = 1` the same script
never reaches the HTTP 200 and ends in max-retries failure after a single
request. -/
theorem submit_429_consumes_attempt_slot :
    (submit_block_api script_429_then_ok 2 5).request_attempts = [0, 1] ∧
    (submit_block_api script_429_then_ok 2 5).request_attempts ≠ [0, 0] ∧
    (submit_block_api script_429_then_ok 2 5).result.success = true ∧
    (submit_block_api script_429_then_ok 2 5).sleeps = [5, 2] ∧
    (submit_block_api script_429_then_ok 2 1).result =
      ⟨false, some false, some ("Max retries exceeded")⟩ ∧
    (submit_block_api script_429_then_ok 2 1).request_attempts = [0] := by
  decide

/-- Claim C2 (amended): for every retry delay and every configured attempt
count of at least 2, a run receiving one HTTP 429 followed by HTTP 200
success sleeps exactly once for 5 seconds (right after the 429), then
retries at the next attempt index - consuming one of the attempt slots -
with the standard linear backoff sleep of one retry-delay, and succeeds. -/
theorem submit_429_retry_behaviour (d : Int) (m : Nat) :
    (submit_block_api script_429_then_ok d (m + 2)).result.success = true ∧
    (submit_block_api script_429_then_ok d (m + 2)).request_attempts =
      [0, 1] ∧
    (submit_block_api script_429_then_ok d (m + 2)).sleeps = [5, d] := by
  refine ⟨?_, ?_, ?_⟩ <;>
    simp [submit_block_api, submit_block_api_go, script_429_then_ok]

/-- Claim C3 (counterexample): on HTTP 200 with success=false and an error
text free of the non-retryable keywords, `ApiHandler.submit_block` does not
continue the retry loop: it returns the retryable-marked rejection to its
caller after a single request even though four of the five configured
attempts remain. -/
theorem submit_clean_rejection_returns_immediately :
    (submit_block_api script_clean_rejection 2 5).request_attempts = [0] ∧
    (submit_block_api script_clean_rejection 2 5).result =
      ⟨false, some true, some ("server busy")⟩ := by
  decide

/-- Claim C3 (amended): on a retryable 200-rejection the two submission
pipelines diverge: `ApiHandler.submit_block` classifies it retryable but
returns it to the caller at once (a single request, however many attempts
are configured), while `PhonesiumMiner.submit_block` continues the loop
with the next attempt, counting one rejection, and succeeds on the
following response. -/
theorem submit_clean_rejection_pipelines (e : String) (d : Int) (m : Nat)
    (stats : MinerStats) (hkw : contains_keyword e = false) :
    (submit_block_api (fun _ => .http 200 (.json false (some e))) d
      (m + 1)).request_attempts = [0] ∧
    (submit_block_api (fun _ => .http 200 (.json false (some e))) d
      (m + 1)).result = ⟨false, some true, some e⟩ ∧
    (submit_block_miner (script_rejection_then_ok e) d (m + 2)
      stats).returned = true ∧
    (submit_block_miner (script_rejection_then_ok e) d (m + 2)
      stats).request_attempts = [0, 1] ∧
    (submit_block_miner (script_rejection_then_ok e) d (m + 2) stats).stats =
      { stats with
        accepted_blocks := stats.accepted_blocks + 1
        rejected_blocks := stats.rejected_blocks + 1 } := by
  refine ⟨?_, ?_, ?_, ?_, ?_⟩ <;>
    simp [submit_block_api, submit_block_api_go, submit_block_miner,
      submit_block_miner_go, script_rejection_then_ok, hkw]

/-- Witness for the amended claim C3, at the error text "server busy" with
the default delay and attempt counts and zeroed counters. -/
theorem submit_clean_rejection_pipelines_witness :
    (submit_block_api (fun _ => .http 200 (.json false (some ("server busy"))))
      2 5).request_attempts = [0] ∧
    (submit_block_api (fun _ => .http 200 (.json false (some ("server busy"))))
      2 5).result = ⟨false, some true, some ("server busy")⟩ ∧
    (submit_block_miner (script_rejection_then_ok ("server busy")) 2 5
      ⟨0, 0, 0⟩).returned = true ∧
    (submit_block_miner (script_rejection_then_ok ("server busy")) 2 5
      ⟨0, 0, 0⟩).request_attempts = [0, 1] ∧
    (submit_block_miner (script_rejection_then_ok ("server busy")) 2 5
      ⟨0, 0, 0⟩).stats =
      { (⟨0, 0, 0⟩ : MinerStats) with
        accepted_blocks := (0 : Nat) + 1
        rejected_blocks := (0 : Nat) + 1 } :=
  submit_clean_rejection_pipelines ("server busy") 2 3 ⟨0, 0, 0⟩ (by decide)

/-- Claim C4 (counterexample): under an all-HTTP-500 server with the default
five attempts, `ApiHandler.submit_block` does not report max-retries: it
returns after the very first request with the retryable server-error
outcome, and the caller's counter update then increases the network-error
counter by exactly 1, not by 5. -/
theorem submit_all_500_api_returns_first :
    (submit_block_api script_all_500 2 5).request_attempts = [0] ∧
    (submit_block_api script_all_500 2 5).result =
      ⟨false, some true, some ("Server error: 500")⟩ ∧
    (submit_block_api script_all_500 2 5).result.error ≠
      some ("Max retries exceeded") ∧
    apply_submit_result ⟨0, 0, 0⟩ (submit_block_api script_all_500 2 5).result =
      ⟨0, 1, 1⟩ := by
  decide

/-- Claim C4 (amended): under an all-HTTP-500 server with five attempts,
`PhonesiumMiner.submit_block` runs all five attempts (indices 0 to 4),
increments the network-error counter by exactly 5 - one per failed
attempt - touches neither block counter, and ends in the terminal
max-retries failure return; `ApiHandler.submit_block` instead returns the
retryable server-error outcome after the first request. -/
theorem submit_all_500_behaviour (d : Int) (stats : MinerStats) :
    (submit_block_miner script_all_500 d 5 stats).returned = false ∧
    (submit_block_miner script_all_500 d 5 stats).request_attempts =
      [0, 1, 2, 3, 4] ∧
    (submit_block_miner script_all_500 d 5 stats).stats =
      { stats with network_errors := stats.network_errors + 5 } ∧
    (submit_block_api script_all_500 d 5).request_attempts = [0] ∧
    (submit_block_api script_all_500 d 5).result =
      ⟨false, some true, some ("Server error: 500")⟩ := by
  refine ⟨?_, ?_, ?_, ?_, ?_⟩ <;>
    (simp [submit_block_miner, submit_block_miner_go, submit_block_api,
      submit_block_api_go, script_all_500]; try rfl)

/-- Claim C5 (counterexample): a clean application-level rejection
(HTTP 200, success=false, error text free of the non-retryable keywords)
flows back to `start_mining` marked retryable, and the app-level counter
update then increments the network-error counter - contradicting "never for
a clean application-level rejection". The rejected counter rises too. -/
theorem clean_rejection_increments_network_errors :
    apply_submit_result ⟨0, 0, 0⟩
      (submit_block_api script_clean_rejection 2 5).result = ⟨0, 1, 1⟩ := by
  decide

/-- Claim C5 (amended): for every submission ending in rejection, the
app-level update increments the rejected-blocks counter, and it increments
the network-errors counter exactly when the returned outcome is marked
retryable - which excludes keyword-classified non-retryable rejections but
includes clean retryable application-level rejections. -/
theorem rejection_counter_update (e : String) (d : Int) (m : Nat)
    (stats : MinerStats) :
    (submit_block_api (fun _ => .http 200 (.json false (some e))) d
      (m + 1)).result.success = false ∧
    apply_submit_result stats
      (submit_block_api (fun _ => .http 200 (.json false (some e))) d
        (m + 1)).result =
      { stats with
        rejected_blocks := stats.rejected_blocks + 1
        network_errors :=
          stats.network_errors + (if contains_keyword e then 0 else 1) } := by
  by_cases hkw : contains_keyword e <;>
    refine ⟨?_, ?_⟩ <;>
    simp [submit_block_api, submit_block_api_go, apply_submit_result, hkw]

end Phonesium
